import Mathlib

/-!
Verification development for the `barplots` label-layout code
(`barplots/utils/plot_bar_labels.py` and `barplots/utils/plot_boxplots.py`).

The Python functions are shallowly embedded: floating point numbers become
rationals, the mutations performed on the matplotlib `Axes` object become an
explicit list of `AxisOp` values (one per mutating call, in call order), and
raised exceptions become an `Option RenderError` component of the result.
External collaborators that feed data into the functions
(`text_positions`, `get_max_bar_position`, `sanitize_ml_labels`) are treated
as inputs: the per-level `(position, sanitized label)` pairs and the total
width are fields of the input record.
-/

/-- The two matplotlib axes a mutating call can target (`axis='x'` / `axis='y'`). -/
inductive BarAxis
  | x
  | y
deriving DecidableEq, Repr

/-- One mutating call on the drawing surface, mirroring the call sites in
`plot_bar_labels`:
* `set_ylabel` — `axes.set_ylabel(text)`;
* `locator_params` — `axes.locator_params(axis=..., nbins=...)`;
* `set_major_formatter` — installing the `sanitize_digits` formatter;
* `set_ticks` — `axes.set_xticks/set_yticks(positions, minor=...)`;
* `set_ticklabels` — `axes.set_xticklabels/set_yticklabels(labels, minor=..., ha/va=...)`;
* `tick_params_rotation` — a `tick_params` call carrying `labelrotation`
  (with its optional `labelsize`);
* `tick_params_length` — the `tick_params` call carrying `direction='out'`,
  `length=...` and `width=0`. -/
inductive AxisOp
  | set_ylabel (text : String)
  | locator_params (axis : BarAxis) (nbins : ℕ)
  | set_major_formatter (axis : BarAxis)
  | set_ticks (axis : BarAxis) (minor : Bool) (positions : List ℚ)
  | set_ticklabels (axis : BarAxis) (minor : Bool) (labels : List String) (alignment : String)
  | tick_params_rotation (axis : BarAxis) (minorTicks : Bool) (labelsize : Option ℕ)
      (labelrotation : ℚ)
  | tick_params_length (axis : BarAxis) (minorTicks : Bool) (labelsize : ℕ) (length : ℚ)
      (tickwidth : ℚ)
deriving DecidableEq, Repr

/-- The synchronous failures of the embedded code: `emptyLevel` is the
`ValueError` raised when a level yields zero `(position, label)` pairs
(the spec's `EmptyLevel`), `zeroDivision` the `ZeroDivisionError` of the
rotation heuristic when the longest label has zero characters, and
`noStyleMatch` the spec's `NoStyleMatch` of the style resolver. -/
inductive RenderError
  | emptyLevel
  | zeroDivision
  | noStyleMatch
deriving DecidableEq, Repr

/-- The `Union[float, str]` rotation argument: the string `"auto"` or a
fixed numeric angle. -/
inductive RotationSetting
  | auto
  | fixed (angle : ℚ)
deriving DecidableEq, Repr

/-- Round-half-to-even on rationals, the tie-breaking rule of Python's
built-in `round`. -/
def roundHalfEven (q : ℚ) : ℤ :=
  let f : ℤ := ⌊q⌋
  if q - f < 1/2 then f
  else if 1/2 < q - f then f + 1
  else if f % 2 = 0 then f else f + 1

/-- `round(pos, 5)`: rounding to five decimal digits. -/
def round5 (q : ℚ) : ℚ :=
  (roundHalfEven (q * 100000) : ℚ) / 100000

/-- Lines 85–92 of `plot_bar_labels.py`: round every position to five
decimals, then add `width*0.0002` to each position already present in the
pass-scoped `other_positions` collection (the collection is only extended
after the whole level is processed, so membership is tested against the
state left by strictly earlier level iterations). -/
def nudge_positions (other : List ℚ) (width : ℚ) (positions : List ℚ) : List ℚ :=
  (positions.map round5).map
    (fun p => if p ∈ other then p + width * (2 / 10000) else p)

/-- Lines 96–113 of `plot_bar_labels.py`: the adopted minor rotation.
In `"auto"` mode, Python evaluates `len(set(labels)) <= width * 5 /
max_characters_number_in_labels` only when `minor` holds (short-circuit),
so a zero maximum label length raises `ZeroDivisionError` exactly when the
level is minor. -/
def adapted_minor_rotation (minor_rotation : RotationSetting) (minor vertical : Bool)
    (distinct maxChars : ℕ) (width : ℚ) : Except RenderError ℚ :=
  match minor_rotation with
  | .fixed r => .ok r
  | .auto =>
    if minor = true ∧ maxChars = 0 then .error .zeroDivision
    else if minor = true ∧ (distinct : ℚ) ≤ width * 5 / (maxChars : ℚ) ∧ vertical = true then
      .ok 90
    else if minor = true ∧ (distinct : ℚ) ≤ width * 20 / (maxChars : ℚ) ∧ vertical = false then
      .ok 90
    else .ok 0

/-- Lines 115–132 of `plot_bar_labels.py`: the adopted major rotation.
Both guards start with `not minor`, so the division (and hence a possible
`ZeroDivisionError`) happens exactly when the level is not minor. Note the
asymmetric comparison: `<=` against `width * 5 / maxChars` in the
horizontal case, `>=` against `width * 20 / maxChars` in the vertical one. -/
def adapted_major_rotation (major_rotation : RotationSetting) (minor vertical : Bool)
    (distinct maxChars : ℕ) (width : ℚ) : Except RenderError ℚ :=
  match major_rotation with
  | .fixed r => .ok r
  | .auto =>
    if minor = false ∧ maxChars = 0 then .error .zeroDivision
    else if minor = false ∧ (distinct : ℚ) ≤ width * 5 / (maxChars : ℚ) ∧ vertical = false then
      .ok 90
    else if minor = false ∧ width * 20 / (maxChars : ℚ) ≤ (distinct : ℚ) ∧ vertical = true then
      .ok 90
    else .ok 0

/-- The inputs of `plot_bar_labels`. `width` is the value of
`get_max_bar_position(df, bar_width, space_width)` and `data level` the
sequence of `(position, label)` pairs obtained from
`text_positions(df, bar_width, space_width, level)` with the labels already
passed through `sanitize_ml_labels` — both collaborators live outside this
component and are treated as inputs. -/
structure BarLabelsInput where
  vertical : Bool
  levels : ℕ
  width : ℚ
  minor_rotation : RotationSetting
  major_rotation : RotationSetting
  unique_minor_labels : Bool
  unique_major_labels : Bool
  unique_data_label : Bool
  data : ℕ → List (ℚ × String)

/-- The sanitized labels of one level. -/
def level_labels (inp : BarLabelsInput) (level : ℕ) : List String :=
  (inp.data level).map Prod.snd

/-- `max(len(label) for label in labels)` (0 when the level is empty; the
empty case never reaches this computation because the unpacking of
`text_positions` raises first). -/
def level_max_chars (inp : BarLabelsInput) (level : ℕ) : ℕ :=
  ((level_labels inp level).map String.length).foldl max 0

/-- `len(set(labels))`: the number of distinct sanitized labels. -/
def level_distinct (inp : BarLabelsInput) (level : ℕ) : ℕ :=
  (level_labels inp level).dedup.length

/-- One iteration of the `for level in reversed(range(max(levels-2, 0),
levels))` loop (lines 75–203): returns the updated `other_positions`
collection, the axis mutations of the iteration, and the error aborting the
call, if any. An empty level aborts before touching `other_positions`
(the `zip(*...)` unpacking raises); a rotation error aborts after
`other_positions` was extended but before any axis mutation; the
`continue` statements for the uniqueness flags skip the mutations but keep
the extended `other_positions`. -/
def processLevel (inp : BarLabelsInput) (other : List ℚ) (level : ℕ) :
    List ℚ × List AxisOp × Option RenderError :=
  let pairs := inp.data level
  if pairs.isEmpty then (other, [], some .emptyLevel)
  else
    let positions := pairs.map Prod.fst
    let labels := pairs.map Prod.snd
    let maxChars := level_max_chars inp level
    let distinct := level_distinct inp level
    let final := nudge_positions other inp.width positions
    let nextOther := other ++ final
    let minor : Bool := level + 1 == inp.levels
    match adapted_minor_rotation inp.minor_rotation minor inp.vertical distinct maxChars
        inp.width with
    | .error e => (nextOther, [], some e)
    | .ok minorRot =>
      match adapted_major_rotation inp.major_rotation minor inp.vertical distinct maxChars
          inp.width with
      | .error e => (nextOther, [], some e)
      | .ok majorRot =>
        if minor && inp.unique_minor_labels then (nextOther, [], none)
        else if !minor && inp.unique_major_labels then (nextOther, [], none)
        else
          let ops :=
            if inp.vertical then
              [AxisOp.set_ticks .x minor final,
               AxisOp.set_ticklabels .x minor labels "center"] ++
              (if minor then
                [AxisOp.tick_params_rotation .x true (some 9) minorRot,
                 AxisOp.tick_params_length .x false 10
                   (if minorRot > 80 then (6 * maxChars : ℚ) else 20) 0]
               else
                [AxisOp.tick_params_rotation .x false (some 10) majorRot])
            else
              [AxisOp.set_ticks .y minor final,
               AxisOp.set_ticklabels .y minor labels "center"] ++
              (if minor then
                [AxisOp.tick_params_rotation .y true (some 9) minorRot,
                 AxisOp.tick_params_length .y false 10
                   (if minorRot > 80 then 20 else (6 * maxChars : ℚ)) 0]
               else
                [AxisOp.tick_params_rotation .y false none majorRot])
          (nextOther, ops, none)

/-- Runs the level loop, threading `other_positions` and stopping at the
first error (a raised exception aborts the whole call). -/
def runLevels (inp : BarLabelsInput) : List ℚ → List ℕ → List AxisOp × Option RenderError
  | _, [] => ([], none)
  | other, l :: rest =>
    match processLevel inp other l with
    | (nextOther, ops, none) =>
      let r := runLevels inp nextOther rest
      (ops ++ r.1, r.2)
    | (_, ops, some e) => (ops, some e)

/-- `reversed(range(max(levels - 2, 0), levels))`: the (at most two) levels
the loop visits, deepest first. -/
def processedWindow (levels : ℕ) : List ℕ :=
  (List.range' (levels - 2) (levels - (levels - 2))).reverse

/-- The embedding of `plot_bar_labels`: the list of axis mutations in call
order together with the aborting error, if any. Lines 55–73 (the data-axis
label, the locator and the numeric formatter) run before the level loop. -/
def plot_bar_labels (inp : BarLabelsInput) : List AxisOp × Option RenderError :=
  let preamble :=
    (if inp.unique_data_label then [AxisOp.set_ylabel ""] else []) ++
    (if inp.vertical then [AxisOp.locator_params .y 5, AxisOp.set_major_formatter .y]
     else [AxisOp.locator_params .x 5, AxisOp.set_major_formatter .x])
  let r := runLevels inp [] (processedWindow inp.levels)
  (preamble ++ r.1, r.2)

/-- All tick positions emitted during a pass, in emission order. -/
def emitted_positions (ops : List AxisOp) : List ℚ :=
  ops.flatMap fun op =>
    match op with
    | .set_ticks _ _ ps => ps
    | _ => []

/-- The rotations applied to minor ticks. -/
def minor_rotations (ops : List AxisOp) : List ℚ :=
  ops.filterMap fun op =>
    match op with
    | .tick_params_rotation _ true _ r => some r
    | _ => none

/-- The rotations applied to major ticks. -/
def major_rotations (ops : List AxisOp) : List ℚ :=
  ops.filterMap fun op =>
    match op with
    | .tick_params_rotation _ false _ r => some r
    | _ => none

/-- The lengths given to `tick_params(..., length=...)` calls. -/
def applied_tick_lengths (ops : List AxisOp) : List ℚ :=
  ops.filterMap fun op =>
    match op with
    | .tick_params_length _ _ _ len _ => some len
    | _ => none

/-- The position lists given to major (`minor=False`) `set_ticks` calls. -/
def major_tick_positions (ops : List AxisOp) : List (List ℚ) :=
  ops.filterMap fun op =>
    match op with
    | .set_ticks _ false ps => some ps
    | _ => none

/-- An op that emits tick positions, tick labels or a tick rotation for the
minor level. -/
def isMinorEmission : AxisOp → Bool
  | .set_ticks _ true _ => true
  | .set_ticklabels _ true _ _ => true
  | .tick_params_rotation _ true _ _ => true
  | _ => false

/-- An op that emits tick positions, tick labels or a tick rotation for a
major level. -/
def isMajorEmission : AxisOp → Bool
  | .set_ticks _ false _ => true
  | .set_ticklabels _ false _ _ => true
  | .tick_params_rotation _ false _ _ => true
  | _ => false

/-- No op of the list emits minor-level positions, labels or rotations. -/
def no_minor_emission (ops : List AxisOp) : Bool :=
  ops.all fun op => !(isMinorEmission op)

/-- No op of the list emits major-level positions, labels or rotations. -/
def no_major_emission (ops : List AxisOp) : Bool :=
  ops.all fun op => !(isMajorEmission op)

/-- A pass input exhibiting a position collision: the minor level emits
positions `0` and `1/5000 = 0.0002`; the major level's position `0` is then
nudged by `width * 0.0002 = 1/5000` onto the already-emitted `1/5000`. -/
def c1Input : BarLabelsInput :=
  { vertical := true
    levels := 2
    width := 1
    minor_rotation := .fixed 0
    major_rotation := .fixed 0
    unique_minor_labels := false
    unique_major_labels := false
    unique_data_label := false
    data := fun l => if l = 1 then [(0, "a"), (1/5000, "b")] else [(0, "c")] }

/-- A single minor vertical level with three distinct labels of maximal
length 2 (`"a"`, `"b"`, `"cc"`) and `width = 1`: the code compares
`3 ≤ 1*5/2` (false, rotation 0) while the spec's density test compares
`3/2 ≤ 1*5` (true, rotation 90). -/
def c2Input : BarLabelsInput :=
  { vertical := true
    levels := 1
    width := 1
    minor_rotation := .auto
    major_rotation := .fixed 0
    unique_minor_labels := false
    unique_major_labels := false
    unique_data_label := false
    data := fun _ => [(0, "a"), (1, "b"), (2, "cc")] }

/-- A horizontal pass whose single (minor) level adopts the fixed rotation
90 with maximal label length 2: the code emits major tick length 20, not
`6 * 2 = 12`. -/
def c3Input : BarLabelsInput :=
  { vertical := false
    levels := 1
    width := 1
    minor_rotation := .fixed 90
    major_rotation := .fixed 0
    unique_minor_labels := false
    unique_major_labels := false
    unique_data_label := false
    data := fun _ => [(0, "aa"), (1, "b")] }

/-- A horizontal two-level pass whose major level has three distinct labels
of maximal length 2 and `width = 1`: the code compares `3 ≤ 1*5/2` (false,
rotation 0) while the spec's density test compares `3/2 ≤ 1*5` (true,
rotation 90). -/
def c4Input : BarLabelsInput :=
  { vertical := false
    levels := 2
    width := 1
    minor_rotation := .fixed 0
    major_rotation := .auto
    unique_minor_labels := false
    unique_major_labels := false
    unique_data_label := false
    data := fun l => if l = 1 then [(0, "z")] else [(1, "aa"), (2, "b"), (3, "c")] }

/-- A two-level pass with both uniqueness flags raised. -/
def c5Input : BarLabelsInput :=
  { vertical := true
    levels := 2
    width := 1
    minor_rotation := .fixed 0
    major_rotation := .fixed 0
    unique_minor_labels := true
    unique_major_labels := true
    unique_data_label := false
    data := fun l => if l = 1 then [(0, "a"), (1, "b")] else [(0, "c")] }

/-- A pass whose single level yields zero `(position, label)` pairs. -/
def c7Input : BarLabelsInput :=
  { vertical := true
    levels := 1
    width := 1
    minor_rotation := .auto
    major_rotation := .auto
    unique_minor_labels := false
    unique_major_labels := false
    unique_data_label := false
    data := fun _ => [] }

/-- A two-level pass whose minor level is suppressed by
`unique_minor_labels` while its position `0` still forces the major level's
position `0` to be nudged to `1/5000`. -/
def c8Input : BarLabelsInput :=
  { vertical := true
    levels := 2
    width := 1
    minor_rotation := .fixed 0
    major_rotation := .fixed 0
    unique_minor_labels := true
    unique_major_labels := false
    unique_data_label := false
    data := fun l => if l = 1 then [(0, "a")] else [(0, "b")] }

/-- A horizontal (vertical = false) pass asking for a unique data label:
the y-axis label is cleared even though the value axis is the x-axis. -/
def c9Input : BarLabelsInput :=
  { vertical := false
    levels := 1
    width := 1
    minor_rotation := .fixed 0
    major_rotation := .fixed 0
    unique_minor_labels := false
    unique_major_labels := false
    unique_data_label := true
    data := fun _ => [(0, "a")] }

/-- A key of a style dictionary (`alphas`, `colors`, `hatch`): Python allows
both plain strings and tuples of strings as keys of the same dict. -/
inductive StyleKey
  | str (s : String)
  | tup (t : List String)
deriving DecidableEq, Repr

/-- `m[k]` / `k in m` for a plain-string key: the first binding whose key is
the string `s`. -/
def lookup_str {V : Type} (m : List (StyleKey × V)) (s : String) : Option V :=
  (m.find? fun kv => kv.1 = StyleKey.str s).map Prod.snd

/-- Whether a style key matches a (nonempty) suffix of the category tuple:
a tuple key matches the equal suffix, a plain-string key matches the
singleton suffix holding that string. -/
def keyMatches (k : StyleKey) (suffix : List String) : Bool :=
  match k with
  | .str s => suffix = [s]
  | .tup t => t = suffix

/-- The nonempty suffixes of a list, longest first. -/
def suffixesDesc : List String → List (List String)
  | [] => []
  | x :: xs => (x :: xs) :: suffixesDesc xs

/-- Modelled from the spec: `get_best_match` (imported by
`plot_boxplots.py` from `.get_best_match`, whose source is not part of the
repository slice) resolves a style attribute for a category tuple by the
longest matching suffix of the tuple — trying suffixes from the full tuple
down to the leaf-most element, taking at each length the first matching
binding in the map's insertion order — and fails with `NoStyleMatch` when
no key matches any suffix. -/
def get_best_match {V : Type} (m : List (StyleKey × V)) (tuple : List String) :
    Except RenderError V :=
  match (suffixesDesc tuple).findSome?
      (fun suf => ((m.find? fun kv => keyMatches kv.1 suf).map Prod.snd)) with
  | some v => .ok v
  | none => .error .noStyleMatch

/-- The style lookup performed inline in `plot_boxplots.py` (lines 48–66)
for each of `alphas`, `colors` and a present `hatch` map:
`m[index[-1]] if index[-1] in m else get_best_match(m, (top_index, *index))`. -/
def resolve_style {V : Type} (m : List (StyleKey × V)) (top_index : String)
    (index : List String) : Except RenderError V :=
  match lookup_str m (index.getLastD "") with
  | some v => .ok v
  | none => get_best_match m (top_index :: index)

/-- One invocation of the drawing primitive `plot_boxplot`, with the
arguments `plot_boxplots` computes for it. -/
structure BoxplotCall where
  x : ℚ
  y : ℚ
  std : ℚ
  bar_width : ℚ
  alpha : ℚ
  color : String
  hatch : Option String
  label : String
deriving DecidableEq, Repr

/-- The hatch argument: `None` when no hatch map is given, otherwise the
resolved hatch style (lines 58–66 of `plot_boxplots.py`). -/
def hatch_value (hatch : Option (List (StyleKey × String))) (top_index : String)
    (index : List String) : Except RenderError (Option String) :=
  match hatch with
  | none => .ok none
  | some hm => (resolve_style hm top_index index).map some

/-- The arguments assembled for one bar `(x, y, std, index)` of
`bar_positions`; a failing style lookup propagates as the call's error. -/
def bar_call (alphas : List (StyleKey × ℚ)) (colors : List (StyleKey × String))
    (hatch : Option (List (StyleKey × String))) (top_index : String) (bar_width : ℚ)
    (b : ℚ × ℚ × ℚ × List String) : Except RenderError BoxplotCall :=
  match resolve_style alphas top_index b.2.2.2 with
  | .error e => .error e
  | .ok a =>
    match resolve_style colors top_index b.2.2.2 with
    | .error e => .error e
    | .ok c =>
      match hatch_value hatch top_index b.2.2.2 with
      | .error e => .error e
      | .ok h =>
        .ok { x := b.1, y := b.2.1, std := b.2.2.1, bar_width := bar_width, alpha := a,
              color := c, hatch := h, label := (b.2.2.2).getLastD "" }

/-- The embedding of `plot_boxplots`: one `plot_boxplot` invocation per bar
yielded by `bar_positions` (an external collaborator, so its output is the
`bars` input), aborting at the first failing style lookup. -/
def plot_boxplots (bars : List (ℚ × ℚ × ℚ × List String)) (bar_width : ℚ)
    (alphas : List (StyleKey × ℚ)) (colors : List (StyleKey × String))
    (hatch : Option (List (StyleKey × String))) (top_index : String) :
    Except RenderError (List BoxplotCall) :=
  match bars with
  | [] => .ok []
  | b :: rest =>
    match bar_call alphas colors hatch top_index bar_width b with
    | .error e => .error e
    | .ok call =>
      match plot_boxplots rest bar_width alphas colors hatch top_index with
      | .error e => .error e
      | .ok more => .ok (call :: more)

/-- Every call of a successful result passes `hatch = None`; a failed
result is vacuously fine. -/
def result_hatches_none (r : Except RenderError (List BoxplotCall)) : Bool :=
  match r with
  | .ok calls => calls.all fun c => c.hatch.isNone
  | .error _ => true

/-- Whether the alpha or color lookup of some bar fails. -/
def some_alpha_or_color_fails (bars : List (ℚ × ℚ × ℚ × List String))
    (alphas : List (StyleKey × ℚ)) (colors : List (StyleKey × String))
    (top_index : String) : Bool :=
  bars.any fun b =>
    (match resolve_style alphas top_index b.2.2.2 with
     | .error _ => true
     | .ok _ => false) ||
    (match resolve_style colors top_index b.2.2.2 with
     | .error _ => true
     | .ok _ => false)

/-- A failed result whose failure is traceable to an alpha or color lookup;
a successful result is vacuously fine. -/
def error_only_from_alpha_or_color (bars : List (ℚ × ℚ × ℚ × List String))
    (alphas : List (StyleKey × ℚ)) (colors : List (StyleKey × String))
    (top_index : String) (r : Except RenderError (List BoxplotCall)) : Bool :=
  match r with
  | .ok _ => true
  | .error _ => some_alpha_or_color_fails bars alphas colors top_index

/-- A style map holding both the bare leaf key `"b"` and the full category
tuple `("t", "a", "b")`, with different values. -/
def c6Map : List (StyleKey × ℚ) :=
  [(StyleKey.str "b", 1), (StyleKey.tup ["t", "a", "b"], 2)]

/-- A style map holding the full category tuple `("t", "a", "b")` only. -/
def c6MapFull : List (StyleKey × ℚ) :=
  [(StyleKey.tup ["t", "a", "b"], 2)]

theorem le_foldl_max_init (l : List ℕ) (i : ℕ) : i ≤ l.foldl max i := by
  induction l generalizing i with
  | nil => simp
  | cons x xs ih => exact le_trans (le_max_left i x) (ih (max i x))

theorem le_foldl_max_of_mem {l : List ℕ} {a : ℕ} (ha : a ∈ l) (i : ℕ) :
    a ≤ l.foldl max i := by
  induction l generalizing i with
  | nil => cases ha
  | cons x xs ih =>
    rcases List.mem_cons.mp ha with h | h
    · subst h
      exact le_trans (le_max_right i a) (le_foldl_max_init xs (max i a))
    · exact ih h (max i x)

theorem level_max_chars_ne_zero {inp : BarLabelsInput} {level : ℕ} {p : ℚ × String}
    (hp : p ∈ inp.data level) (hlen : p.2 ≠ "") : level_max_chars inp level ≠ 0 := by
  have hmem : p.2.length ∈ (level_labels inp level).map String.length := by
    simp only [level_labels, List.map_map, List.mem_map]
    exact ⟨p, hp, rfl⟩
  have h1 : 1 ≤ p.2.length := by
    by_contra hc
    push_neg at hc
    interval_cases h : p.2.length
    exact hlen (String.ext (List.length_eq_zero.mp (by simpa using h)))
  have := le_foldl_max_of_mem hmem 0
  simp only [level_max_chars]
  omega

theorem adapted_minor_rotation_ok (mr : RotationSetting) (minor vertical : Bool)
    (d mc : ℕ) (w : ℚ) (h : mc ≠ 0) :
    ∃ r, adapted_minor_rotation mr minor vertical d mc w = .ok r := by
  cases mr with
  | fixed r => exact ⟨r, rfl⟩
  | auto =>
    unfold adapted_minor_rotation
    split_ifs with h1 h2 h3
    · exact absurd h1.2 h
    · exact ⟨90, rfl⟩
    · exact ⟨90, rfl⟩
    · exact ⟨0, rfl⟩

theorem adapted_major_rotation_ok (mr : RotationSetting) (minor vertical : Bool)
    (d mc : ℕ) (w : ℚ) (h : mc ≠ 0) :
    ∃ r, adapted_major_rotation mr minor vertical d mc w = .ok r := by
  cases mr with
  | fixed r => exact ⟨r, rfl⟩
  | auto =>
    unfold adapted_major_rotation
    split_ifs with h1 h2 h3
    · exact absurd h1.2 h
    · exact ⟨90, rfl⟩
    · exact ⟨90, rfl⟩
    · exact ⟨0, rfl⟩

theorem processLevel_of_empty (inp : BarLabelsInput) (other : List ℚ) (level : ℕ)
    (h : (inp.data level).isEmpty = true) :
    processLevel inp other level = (other, [], some .emptyLevel) := by
  simp [processLevel, h]

theorem processLevel_fst (inp : BarLabelsInput) (other : List ℚ) (level : ℕ) :
    (processLevel inp other level).1 =
      if (inp.data level).isEmpty = true then other
      else other ++ nudge_positions other inp.width ((inp.data level).map Prod.fst) := by
  by_cases h : (inp.data level).isEmpty = true
  · simp [processLevel, h]
  · simp only [processLevel, h, Bool.false_eq_true, if_false, if_neg]
    cases hm : adapted_minor_rotation inp.minor_rotation (level + 1 == inp.levels) inp.vertical
        (level_distinct inp level) (level_max_chars inp level) inp.width with
    | error e => simp
    | ok mr =>
      cases hM : adapted_major_rotation inp.major_rotation (level + 1 == inp.levels)
          inp.vertical (level_distinct inp level) (level_max_chars inp level) inp.width with
      | error e => simp
      | ok MR => split_ifs <;> simp

theorem processLevel_snd_none (inp : BarLabelsInput) (other : List ℚ) (level : ℕ)
    (hne : (inp.data level).isEmpty = false)
    (hmc : level_max_chars inp level ≠ 0) :
    (processLevel inp other level).2.2 = none := by
  obtain ⟨mr, hm⟩ := adapted_minor_rotation_ok inp.minor_rotation (level + 1 == inp.levels)
    inp.vertical (level_distinct inp level) (level_max_chars inp level) inp.width hmc
  obtain ⟨MR, hM⟩ := adapted_major_rotation_ok inp.major_rotation (level + 1 == inp.levels)
    inp.vertical (level_distinct inp level) (level_max_chars inp level) inp.width hmc
  simp only [processLevel, hne, Bool.false_eq_true, if_false, hm, hM]
  split_ifs <;> simp

theorem processLevel_minor_suppressed (inp : BarLabelsInput) (other : List ℚ) (level : ℕ)
    (h : inp.unique_minor_labels = true) :
    no_minor_emission (processLevel inp other level).2.1 = true := by
  by_cases he : (inp.data level).isEmpty = true
  · simp [processLevel, he, no_minor_emission]
  · simp only [Bool.not_eq_true] at he
    simp only [processLevel, he, Bool.false_eq_true, if_false]
    cases hm : adapted_minor_rotation inp.minor_rotation (level + 1 == inp.levels) inp.vertical
        (level_distinct inp level) (level_max_chars inp level) inp.width with
    | error e => simp [no_minor_emission]
    | ok mr =>
      cases hM : adapted_major_rotation inp.major_rotation (level + 1 == inp.levels)
          inp.vertical (level_distinct inp level) (level_max_chars inp level) inp.width with
      | error e => simp [no_minor_emission]
      | ok MR =>
        by_cases hmin : (level + 1 == inp.levels) = true
        · simp [hmin, h, no_minor_emission]
        · simp only [Bool.not_eq_true] at hmin
          simp only [hmin, h, Bool.false_and, Bool.not_false, Bool.true_and,
            Bool.false_eq_true, if_false]
          by_cases hM2 : inp.unique_major_labels = true
          · simp [hM2, no_minor_emission]
          · simp only [Bool.not_eq_true] at hM2
            simp [hM2, no_minor_emission, isMinorEmission]
            cases inp.vertical <;> simp [isMinorEmission]

theorem processLevel_major_suppressed (inp : BarLabelsInput) (other : List ℚ) (level : ℕ)
    (h : inp.unique_major_labels = true) :
    no_major_emission (processLevel inp other level).2.1 = true := by
  by_cases he : (inp.data level).isEmpty = true
  · simp [processLevel, he, no_major_emission]
  · simp only [Bool.not_eq_true] at he
    simp only [processLevel, he, Bool.false_eq_true, if_false]
    cases hm : adapted_minor_rotation inp.minor_rotation (level + 1 == inp.levels) inp.vertical
        (level_distinct inp level) (level_max_chars inp level) inp.width with
    | error e => simp [no_major_emission]
    | ok mr =>
      cases hM : adapted_major_rotation inp.major_rotation (level + 1 == inp.levels)
          inp.vertical (level_distinct inp level) (level_max_chars inp level) inp.width with
      | error e => simp [no_major_emission]
      | ok MR =>
        by_cases hmin : (level + 1 == inp.levels) = true
        · by_cases hu : inp.unique_minor_labels = true
          · simp [hmin, hu, no_major_emission]
          · simp only [Bool.not_eq_true] at hu
            simp only [hmin, hu, Bool.and_false, Bool.false_eq_true, if_false,
              Bool.not_true, Bool.false_and]
            simp [no_major_emission, isMajorEmission]
            cases inp.vertical <;> simp [isMajorEmission]
        · simp only [Bool.not_eq_true] at hmin
          simp [hmin, h, no_major_emission]

theorem level_distinct_update_minor (inp : BarLabelsInput) (b : Bool) (level : ℕ) :
    level_distinct { inp with unique_minor_labels := b } level = level_distinct inp level := rfl

theorem level_max_chars_update_minor (inp : BarLabelsInput) (b : Bool) (level : ℕ) :
    level_max_chars { inp with unique_minor_labels := b } level = level_max_chars inp level := rfl

theorem major_tick_positions_append (a b : List AxisOp) :
    major_tick_positions (a ++ b) = major_tick_positions a ++ major_tick_positions b := by
  simp [major_tick_positions, List.filterMap_append]

theorem processLevel_unique_minor_invariant (inp : BarLabelsInput) (other : List ℚ)
    (level : ℕ) (b1 b2 : Bool) :
    (processLevel { inp with unique_minor_labels := b1 } other level).1 =
        (processLevel { inp with unique_minor_labels := b2 } other level).1 ∧
    (processLevel { inp with unique_minor_labels := b1 } other level).2.2 =
        (processLevel { inp with unique_minor_labels := b2 } other level).2.2 ∧
    major_tick_positions (processLevel { inp with unique_minor_labels := b1 } other level).2.1 =
        major_tick_positions
          (processLevel { inp with unique_minor_labels := b2 } other level).2.1 := by
  by_cases he : (inp.data level).isEmpty = true
  · simp [processLevel, he]
  · simp only [Bool.not_eq_true] at he
    simp only [processLevel, he, Bool.false_eq_true, if_false,
      level_distinct_update_minor, level_max_chars_update_minor]
    cases hm : adapted_minor_rotation inp.minor_rotation (level + 1 == inp.levels) inp.vertical
        (level_distinct inp level) (level_max_chars inp level) inp.width with
    | error e => simp
    | ok mr =>
      cases hM : adapted_major_rotation inp.major_rotation (level + 1 == inp.levels)
          inp.vertical (level_distinct inp level) (level_max_chars inp level) inp.width with
      | error e => simp
      | ok MR =>
        by_cases hmin : (level + 1 == inp.levels) = true
        · cases b1 <;> cases b2 <;>
            by_cases hM2 : inp.unique_major_labels = true <;>
            cases hv : inp.vertical <;>
            simp [hmin, hM2, hv, major_tick_positions]
        · simp only [Bool.not_eq_true] at hmin
          cases b1 <;> cases b2 <;>
            by_cases hM2 : inp.unique_major_labels = true <;>
            cases hv : inp.vertical <;>
            simp [hmin, hM2, hv, major_tick_positions, level_max_chars_update_minor]

theorem runLevels_unique_minor_invariant (inp : BarLabelsInput) (b1 b2 : Bool)
    (ls : List ℕ) : ∀ other : List ℚ,
    major_tick_positions (runLevels { inp with unique_minor_labels := b1 } other ls).1 =
        major_tick_positions (runLevels { inp with unique_minor_labels := b2 } other ls).1 ∧
    (runLevels { inp with unique_minor_labels := b1 } other ls).2 =
        (runLevels { inp with unique_minor_labels := b2 } other ls).2 := by
  induction ls with
  | nil => intro other; simp [runLevels, major_tick_positions]
  | cons l rest ih =>
    intro other
    obtain ⟨hfst, hsnd, hmtp⟩ := processLevel_unique_minor_invariant inp other l b1 b2
    rcases h1 : processLevel { inp with unique_minor_labels := b1 } other l with ⟨o1, ops1, e1⟩
    rcases h2 : processLevel { inp with unique_minor_labels := b2 } other l with ⟨o2, ops2, e2⟩
    rw [h1, h2] at hfst hsnd hmtp
    simp only at hfst hsnd hmtp
    subst hfst hsnd
    cases e1 with
    | some e => simp [runLevels, h1, h2, hmtp]
    | none =>
      obtain ⟨ihmtp, ihsnd⟩ := ih o1
      simp [runLevels, h1, h2, major_tick_positions_append, hmtp, ihmtp, ihsnd]

theorem no_minor_emission_append (a b : List AxisOp) :
    no_minor_emission (a ++ b) = (no_minor_emission a && no_minor_emission b) := by
  simp [no_minor_emission, List.all_append]

theorem no_major_emission_append (a b : List AxisOp) :
    no_major_emission (a ++ b) = (no_major_emission a && no_major_emission b) := by
  simp [no_major_emission, List.all_append]

theorem runLevels_minor_suppressed (inp : BarLabelsInput) (h : inp.unique_minor_labels = true)
    (ls : List ℕ) : ∀ other : List ℚ, no_minor_emission (runLevels inp other ls).1 = true := by
  induction ls with
  | nil => intro other; simp [runLevels, no_minor_emission]
  | cons l rest ih =>
    intro other
    have hl := processLevel_minor_suppressed inp other l h
    rcases hp : processLevel inp other l with ⟨o, ops, e⟩
    rw [hp] at hl
    simp only at hl
    cases e with
    | some e => simpa [runLevels, hp] using hl
    | none => simp [runLevels, hp, no_minor_emission_append, hl, ih o]

theorem runLevels_major_suppressed (inp : BarLabelsInput) (h : inp.unique_major_labels = true)
    (ls : List ℕ) : ∀ other : List ℚ, no_major_emission (runLevels inp other ls).1 = true := by
  induction ls with
  | nil => intro other; simp [runLevels, no_major_emission]
  | cons l rest ih =>
    intro other
    have hl := processLevel_major_suppressed inp other l h
    rcases hp : processLevel inp other l with ⟨o, ops, e⟩
    rw [hp] at hl
    simp only at hl
    cases e with
    | some e => simpa [runLevels, hp] using hl
    | none => simp [runLevels, hp, no_major_emission_append, hl, ih o]

theorem no_minor_emission_plot (inp : BarLabelsInput) (h : inp.unique_minor_labels = true) :
    no_minor_emission (plot_bar_labels inp).1 = true := by
  simp only [plot_bar_labels, no_minor_emission_append, Bool.and_eq_true]
  refine ⟨⟨?_, ?_⟩, runLevels_minor_suppressed inp h (processedWindow inp.levels) []⟩
  · cases hd : inp.unique_data_label <;> simp [no_minor_emission, isMinorEmission]
  · cases hv : inp.vertical <;> simp [no_minor_emission, isMinorEmission]

theorem no_major_emission_plot (inp : BarLabelsInput) (h : inp.unique_major_labels = true) :
    no_major_emission (plot_bar_labels inp).1 = true := by
  simp only [plot_bar_labels, no_major_emission_append, Bool.and_eq_true]
  refine ⟨⟨?_, ?_⟩, runLevels_major_suppressed inp h (processedWindow inp.levels) []⟩
  · cases hd : inp.unique_data_label <;> simp [no_major_emission, isMajorEmission]
  · cases hv : inp.vertical <;> simp [no_major_emission, isMajorEmission]

theorem runLevels_empty_error (inp : BarLabelsInput) (ls : List ℕ) : ∀ other : List ℚ,
    (∃ l ∈ ls, inp.data l = []) →
    (∀ l ∈ ls, inp.data l = [] ∨ ∃ p ∈ inp.data l, p.2 ≠ "") →
    (runLevels inp other ls).2 = some RenderError.emptyLevel := by
  induction ls with
  | nil => intro other h _; exact absurd h (by simp)
  | cons l rest ih =>
    intro other hex hall
    by_cases hl : inp.data l = []
    · have hie : (inp.data l).isEmpty = true := by simp [hl]
      simp [runLevels, processLevel_of_empty inp other l hie]
    · have hex' : ∃ l' ∈ rest, inp.data l' = [] := by
        rcases hex with ⟨l', hmem, hempty⟩
        rcases List.mem_cons.mp hmem with rfl | hmem'
        · exact absurd hempty hl
        · exact ⟨l', hmem', hempty⟩
      have hmc : level_max_chars inp l ≠ 0 := by
        rcases hall l (List.mem_cons_self l rest) with hcase | ⟨p, hp, hlen⟩
        · exact absurd hcase hl
        · exact level_max_chars_ne_zero hp hlen
      have hne : (inp.data l).isEmpty = false := by
        cases hd : inp.data l with
        | nil => exact absurd hd hl
        | cons a as => simp
      have hnone := processLevel_snd_none inp other l hne hmc
      rcases hp : processLevel inp other l with ⟨o, ops, e⟩
      rw [hp] at hnone
      simp only at hnone
      subst hnone
      simp only [runLevels, hp]
      exact ih o hex' (fun l' hm => hall l' (List.mem_cons_of_mem l hm))

theorem major_tick_positions_ylabel_part (u : Bool) :
    major_tick_positions (if u = true then [AxisOp.set_ylabel ""] else []) = [] := by
  cases u <;> simp [major_tick_positions]

theorem major_tick_positions_locator_part (v : Bool) :
    major_tick_positions
      (if v = true then [AxisOp.locator_params .y 5, AxisOp.set_major_formatter .y]
       else [AxisOp.locator_params .x 5, AxisOp.set_major_formatter .x]) = [] := by
  cases v <;> simp [major_tick_positions]

theorem plot_unique_minor_mtp (inp : BarLabelsInput) (b1 b2 : Bool) :
    major_tick_positions (plot_bar_labels { inp with unique_minor_labels := b1 }).1 =
      major_tick_positions (plot_bar_labels { inp with unique_minor_labels := b2 }).1 := by
  obtain ⟨hmtp, _⟩ := runLevels_unique_minor_invariant inp b1 b2 (processedWindow inp.levels) []
  simp only [plot_bar_labels, major_tick_positions_append, major_tick_positions_ylabel_part,
    major_tick_positions_locator_part, List.nil_append]
  exact hmtp

/-- C5: raising `unique_minor_labels` makes the call emit no minor tick
positions, minor tick labels or minor rotation settings, and raising
`unique_major_labels` likewise suppresses every major-level position,
label and rotation emission: the flag alone makes the component skip the
level. -/
theorem c5_unique_flags_skip (inp : BarLabelsInput) :
    no_minor_emission (plot_bar_labels { inp with unique_minor_labels := true }).1 = true ∧
    no_major_emission (plot_bar_labels { inp with unique_major_labels := true }).1 = true :=
  ⟨no_minor_emission_plot _ rfl, no_major_emission_plot _ rfl⟩

/-- C7: when some level of the processed window yields zero
`(position, label)` pairs (and the non-empty levels have at least one
non-empty label, so that no `ZeroDivisionError` preempts), the call fails
synchronously with the empty-level error instead of reaching the division
by the maximum label length. -/
theorem c7_empty_level_error (inp : BarLabelsInput)
    (h1 : ∃ l ∈ processedWindow inp.levels, inp.data l = [])
    (h2 : ∀ l ∈ processedWindow inp.levels, inp.data l = [] ∨ ∃ p ∈ inp.data l, p.2 ≠ "") :
    (plot_bar_labels inp).2 = some RenderError.emptyLevel := by
  simpa [plot_bar_labels] using runLevels_empty_error inp (processedWindow inp.levels) [] h1 h2

theorem c7_empty_level_error_witness :
    (plot_bar_labels c7Input).2 = some RenderError.emptyLevel := by
  refine c7_empty_level_error c7Input ⟨0, ?_, rfl⟩ ?_
  · decide
  · intro l _
    left
    rfl

/-- C9: with `unique_data_label` raised, the y-axis label is cleared
unconditionally — the statement quantifies over every input, so in
particular over horizontal (`vertical = false`) passes, where the value
axis is the x-axis. -/
theorem c9_unique_data_label_clears_ylabel (inp : BarLabelsInput) :
    AxisOp.set_ylabel "" ∈ (plot_bar_labels { inp with unique_data_label := true }).1 := by
  simp [plot_bar_labels]

/-- C8: a level suppressed by `unique_minor_labels` leaves exactly the same
`other_positions` state as an emitted one — the rounded/nudged positions are
still recorded — and consequently the major tick positions emitted by the
rest of the pass do not depend on the suppression flag. -/
theorem c8_suppressed_positions_tracked (inp : BarLabelsInput) (other : List ℚ) (level : ℕ)
    (h : inp.data level ≠ []) :
    ((processLevel { inp with unique_minor_labels := true } other level).1 =
        (processLevel { inp with unique_minor_labels := false } other level).1) ∧
    ((processLevel { inp with unique_minor_labels := true } other level).1 =
        other ++ nudge_positions other inp.width ((inp.data level).map Prod.fst)) ∧
    (major_tick_positions (plot_bar_labels { inp with unique_minor_labels := true }).1 =
        major_tick_positions (plot_bar_labels { inp with unique_minor_labels := false }).1) := by
  have hne : (inp.data level).isEmpty = false := by
    cases hd : inp.data level with
    | nil => exact absurd hd h
    | cons a as => simp
  refine ⟨(processLevel_unique_minor_invariant inp other level true false).1, ?_,
    plot_unique_minor_mtp inp true false⟩
  rw [processLevel_fst]
  simp [hne]

theorem c8_suppressed_positions_tracked_witness :
    ((processLevel { c8Input with unique_minor_labels := true } [] 0).1 =
        (processLevel { c8Input with unique_minor_labels := false } [] 0).1) ∧
    ((processLevel { c8Input with unique_minor_labels := true } [] 0).1 =
        [] ++ nudge_positions [] c8Input.width ((c8Input.data 0).map Prod.fst)) ∧
    (major_tick_positions (plot_bar_labels { c8Input with unique_minor_labels := true }).1 =
        major_tick_positions
          (plot_bar_labels { c8Input with unique_minor_labels := false }).1) :=
  c8_suppressed_positions_tracked c8Input [] 0 (by decide)

/-- C1 (amended): every position a level finally emits is either its
value rounded to five decimals (when that rounded value was not yet in the
pass-scoped position collection) or the rounded value plus exactly one
offset unit `width * 0.0002` (when it was); distinctness of the final
positions is however not guaranteed. -/
theorem c1_nudged_offset (other : List ℚ) (width : ℚ) (positions : List ℚ) (p : ℚ)
    (hp : p ∈ nudge_positions other width positions) :
    (p ∈ positions.map round5 ∧ p ∉ other) ∨
      ∃ q ∈ positions.map round5, q ∈ other ∧ p = q + width * (2 / 10000) := by
  rw [nudge_positions] at hp
  obtain ⟨q, hq, hpe⟩ := List.mem_map.mp hp
  by_cases hmem : q ∈ other
  · right
    refine ⟨q, hq, hmem, ?_⟩
    rw [← hpe, if_pos hmem]
  · left
    rw [← hpe, if_neg hmem]
    exact ⟨hq, hmem⟩

theorem c1_nudged_offset_witness :
    (((1 : ℚ)/5000) ∈ [(0 : ℚ)].map round5 ∧ ((1 : ℚ)/5000) ∉ [(0 : ℚ)]) ∨
      ∃ q ∈ [(0 : ℚ)].map round5, q ∈ [(0 : ℚ)] ∧ (1 : ℚ)/5000 = q + 1 * (2 / 10000) :=
  c1_nudged_offset [0] 1 [0] (1/5000)
    (by norm_num [nudge_positions, round5, roundHalfEven])

/-- C1 (counterexample): a completed pass of `plot_bar_labels` whose three
final emitted positions are `0, 1/5000, 1/5000` — two of them exactly
equal, refuting the claimed distinctness of the positions emitted within
one pass. -/
theorem c1_counterexample :
    emitted_positions (plot_bar_labels c1Input).1 = [0, 1/5000, 1/5000] ∧
    (plot_bar_labels c1Input).2 = none ∧
    ¬ List.Nodup [(0 : ℚ), 1/5000, 1/5000] := by
  refine ⟨?_, ?_, by norm_num [List.nodup_cons]⟩ <;>
    norm_num [plot_bar_labels, runLevels, processLevel, processedWindow, emitted_positions,
      nudge_positions, round5, roundHalfEven, c1Input, level_labels, level_max_chars,
      level_distinct, adapted_minor_rotation, adapted_major_rotation, List.range']

/-- C2 (counterexample): in `c2Input` the minor level has 3 distinct labels
of maximal length 2 on a vertical pass with `width = 1`, so the claimed
test `density = 3/2 ≤ width * 5 = 5` passes, yet the emitted minor
rotation is 0, not 90 (the code compares `3 ≤ 1 * 5 / 2` instead). -/
theorem c2_counterexample :
    level_distinct c2Input 0 = 3 ∧ level_max_chars c2Input 0 = 2 ∧
    ((3 : ℚ) / 2 ≤ c2Input.width * 5) ∧
    minor_rotations (plot_bar_labels c2Input).1 = [0] := by
  have hd : level_distinct c2Input 0 = 3 := by decide
  have hm : level_max_chars c2Input 0 = 2 := by decide
  refine ⟨hd, hm, by norm_num [c2Input], ?_⟩
  norm_num [plot_bar_labels, runLevels, processLevel, processedWindow, minor_rotations,
    nudge_positions, round5, roundHalfEven, hd, hm,
    adapted_minor_rotation, adapted_major_rotation, List.range', List.filterMap_cons,
    show c2Input.levels = 1 from rfl, show c2Input.vertical = true from rfl,
    show c2Input.width = 1 from rfl,
    show c2Input.minor_rotation = RotationSetting.auto from rfl,
    show c2Input.major_rotation = RotationSetting.fixed 0 from rfl,
    show c2Input.unique_minor_labels = false from rfl,
    show c2Input.unique_major_labels = false from rfl,
    show c2Input.unique_data_label = false from rfl,
    show c2Input.data 0 = [(0, "a"), (1, "b"), (2, "cc")] from rfl]

/-- C3 (counterexample): a horizontal pass (`c3Input`) whose minor rotation
90 exceeds 80 and whose longest label has 2 characters emits major tick
length 20, not the claimed `6 * 2 = 12`. -/
theorem c3_counterexample :
    minor_rotations (plot_bar_labels c3Input).1 = [90] ∧
    applied_tick_lengths (plot_bar_labels c3Input).1 = [20] ∧
    level_max_chars c3Input 0 = 2 ∧ (20 : ℚ) ≠ 6 * 2 := by
  have hm : level_max_chars c3Input 0 = 2 := by decide
  refine ⟨?_, ?_, hm, by norm_num⟩ <;>
    norm_num [plot_bar_labels, runLevels, processLevel, processedWindow, minor_rotations,
      applied_tick_lengths, nudge_positions, round5, roundHalfEven, c3Input, hm,
      adapted_minor_rotation, adapted_major_rotation, List.range', List.filterMap_cons]

/-- C4 (counterexample): in `c4Input` the major level has 3 distinct labels
of maximal length 2 on a horizontal pass with `width = 1`, so the claimed
`5`-threshold density test `3/2 ≤ 1 * 5` passes, yet the emitted major
rotation is 0, not 90 (the code compares `3 ≤ 1 * 5 / 2` instead). -/
theorem c4_counterexample :
    level_distinct c4Input 0 = 3 ∧ level_max_chars c4Input 0 = 2 ∧
    ((3 : ℚ) / 2 ≤ c4Input.width * 5) ∧
    major_rotations (plot_bar_labels c4Input).1 = [0] := by
  have hd0 : level_distinct c4Input 0 = 3 := by decide
  have hm0 : level_max_chars c4Input 0 = 2 := by decide
  have hd1 : level_distinct c4Input 1 = 1 := by decide
  have hm1 : level_max_chars c4Input 1 = 1 := by decide
  refine ⟨hd0, hm0, by norm_num [c4Input], ?_⟩
  norm_num [plot_bar_labels, runLevels, processLevel, processedWindow, major_rotations,
    nudge_positions, round5, roundHalfEven, hd0, hm0, hd1, hm1,
    adapted_minor_rotation, adapted_major_rotation, List.range', List.filterMap_cons,
    show c4Input.levels = 2 from rfl, show c4Input.vertical = false from rfl,
    show c4Input.width = 1 from rfl,
    show c4Input.minor_rotation = RotationSetting.fixed 0 from rfl,
    show c4Input.major_rotation = RotationSetting.auto from rfl,
    show c4Input.unique_minor_labels = false from rfl,
    show c4Input.unique_major_labels = false from rfl,
    show c4Input.unique_data_label = false from rfl,
    show c4Input.data 1 = [(0, "z")] from rfl,
    show c4Input.data 0 = [(1, "aa"), (2, "b"), (3, "c")] from rfl]

/-- C2 (amended): in `"auto"` mode, a minor level whose longest sanitized
label has `maxChars > 0` characters is rotated 90 on a value-vertical axis
exactly when `distinct ≤ width * 5 / maxChars` (and 0 otherwise), and on a
value-horizontal axis exactly when `distinct ≤ width * 20 / maxChars` (and
0 otherwise) — the divisor `maxChars` applies to the threshold, not to the
distinct-label count. -/
theorem c2_minor_rotation_auto (vertical : Bool) (distinct maxChars : ℕ) (width : ℚ)
    (h : maxChars ≠ 0) :
    adapted_minor_rotation .auto true vertical distinct maxChars width =
      .ok (if vertical = true then
             (if (distinct : ℚ) ≤ width * 5 / (maxChars : ℚ) then 90 else 0)
           else
             (if (distinct : ℚ) ≤ width * 20 / (maxChars : ℚ) then 90 else 0)) := by
  unfold adapted_minor_rotation
  cases vertical <;> simp [h] <;> split_ifs <;> simp_all

theorem c2_minor_rotation_auto_witness :
    adapted_minor_rotation .auto true true 20 2 10 = .ok 90 := by
  rw [c2_minor_rotation_auto true 20 2 10 (by norm_num)]
  norm_num

/-- C4 (amended): in `"auto"` mode, a major level whose longest sanitized
label has `maxChars > 0` characters is rotated 90 on a value-horizontal
axis exactly when `distinct ≤ width * 5 / maxChars`, and on a
value-vertical axis exactly when `distinct ≥ width * 20 / maxChars` (the
comparison direction flips); it is 0 otherwise — again the divisor
`maxChars` applies to the threshold, not to the distinct-label count. -/
theorem c4_major_rotation_auto (vertical : Bool) (distinct maxChars : ℕ) (width : ℚ)
    (h : maxChars ≠ 0) :
    adapted_major_rotation .auto false vertical distinct maxChars width =
      .ok (if vertical = true then
             (if width * 20 / (maxChars : ℚ) ≤ (distinct : ℚ) then 90 else 0)
           else
             (if (distinct : ℚ) ≤ width * 5 / (maxChars : ℚ) then 90 else 0)) := by
  unfold adapted_major_rotation
  cases vertical <;> simp [h] <;> split_ifs <;> simp_all

theorem c4_major_rotation_auto_witness :
    adapted_major_rotation .auto false true 10 2 1 = .ok 90 := by
  rw [c4_major_rotation_auto true 10 2 1 (by norm_num)]
  norm_num

/-- C3 (amended): when a minor level is emitted, the paired major tick's
length depends on the orientation: on a value-vertical pass it is
`6 * maxChars` when the adopted minor rotation exceeds 80 and 20 otherwise,
while on a value-horizontal pass the two cases are inverted (20 when the
rotation exceeds 80, `6 * maxChars` otherwise); the tick's line width is 0
in all cases. -/
theorem c3_minor_tick_length (inp : BarLabelsInput) (other : List ℚ) (level : ℕ)
    (hmin : (level + 1 == inp.levels) = true)
    (hskip : inp.unique_minor_labels = false)
    (hdata : (inp.data level).isEmpty = false)
    (minorRot majorRot : ℚ)
    (hrot : adapted_minor_rotation inp.minor_rotation (level + 1 == inp.levels) inp.vertical
        (level_distinct inp level) (level_max_chars inp level) inp.width = .ok minorRot)
    (hrotM : adapted_major_rotation inp.major_rotation (level + 1 == inp.levels) inp.vertical
        (level_distinct inp level) (level_max_chars inp level) inp.width = .ok majorRot) :
    AxisOp.tick_params_length (if inp.vertical then BarAxis.x else BarAxis.y) false 10
        (if inp.vertical then
           (if minorRot > 80 then (6 * (level_max_chars inp level : ℚ)) else 20)
         else
           (if minorRot > 80 then 20 else (6 * (level_max_chars inp level : ℚ)))) 0
      ∈ (processLevel inp other level).2.1 := by
  rw [hmin] at hrot hrotM
  simp only [processLevel, hdata, Bool.false_eq_true, if_false, hmin, hrot, hrotM, hskip,
    Bool.and_false, Bool.not_true, Bool.false_and]
  cases hv : inp.vertical <;> simp [hv]

theorem c3_minor_tick_length_witness :
    AxisOp.tick_params_length BarAxis.y false 10 20 0 ∈ (processLevel c3Input [] 0).2.1 := by
  have h := c3_minor_tick_length c3Input [] 0 rfl rfl rfl 90 0 rfl rfl
  norm_num [show c3Input.vertical = false from rfl] at h
  exact h

/-- C6 (counterexample): `c6Map` contains the full category tuple
`("t", "a", "b")` with value 2, yet resolution for the category `("a", "b")`
under top index `"t"` returns 1 — the bare-leaf key `"b"` is probed first
and wins over the exact full-tuple key. -/
theorem c6_counterexample :
    (StyleKey.tup ["t", "a", "b"], (2 : ℚ)) ∈ c6Map ∧
    resolve_style c6Map "t" ["a", "b"] = .ok 1 ∧ (1 : ℚ) ≠ 2 := by
  refine ⟨by decide, by rfl, by norm_num⟩

/-- C6 (amended): when the style map does not bind the bare leaf-most
category, a binding whose key matches the full category tuple
`(top_index, *index)` is returned by resolution (it is the longest possible
suffix, tried first); when the bare leaf key is present, its value wins
instead. -/
theorem c6_full_tuple_match {V : Type} (m : List (StyleKey × V)) (top_index : String)
    (index : List String) (k : StyleKey) (v : V)
    (hleaf : lookup_str m (index.getLastD "") = none)
    (hfull : m.find? (fun kv => keyMatches kv.1 (top_index :: index)) = some (k, v)) :
    resolve_style m top_index index = .ok v := by
  simp only [resolve_style, hleaf, get_best_match, suffixesDesc, List.findSome?, hfull,
    Option.map_some']

theorem c6_full_tuple_match_witness :
    resolve_style c6MapFull "t" ["a", "b"] = .ok 2 :=
  c6_full_tuple_match c6MapFull "t" ["a", "b"] (StyleKey.tup ["t", "a", "b"]) 2 rfl rfl

/-- C10: when `plot_boxplots` is called with `hatch = None`, every
assembled `plot_boxplot` invocation receives `hatch = None`, and a failing
run can only fail because an alpha or a color lookup failed — no hatch
lookup is ever performed, so a missing hatch style can never raise
`NoStyleMatch`. -/
theorem c10_hatch_none (bars : List (ℚ × ℚ × ℚ × List String)) (bw : ℚ)
    (alphas : List (StyleKey × ℚ)) (colors : List (StyleKey × String)) (top_index : String) :
    result_hatches_none (plot_boxplots bars bw alphas colors none top_index) = true ∧
    error_only_from_alpha_or_color bars alphas colors top_index
      (plot_boxplots bars bw alphas colors none top_index) = true := by
  induction bars with
  | nil => exact ⟨rfl, rfl⟩
  | cons b rest ih =>
    obtain ⟨ih1, ih2⟩ := ih
    cases ha : resolve_style alphas top_index b.2.2.2 with
    | error e =>
      have hbc : bar_call alphas colors none top_index bw b = .error e := by
        simp [bar_call, ha]
      constructor
      · simp [plot_boxplots, hbc, result_hatches_none]
      · simp [plot_boxplots, hbc, error_only_from_alpha_or_color, some_alpha_or_color_fails,
          List.any_cons, ha]
    | ok a =>
      cases hc : resolve_style colors top_index b.2.2.2 with
      | error e =>
        have hbc : bar_call alphas colors none top_index bw b = .error e := by
          simp [bar_call, ha, hc]
        constructor
        · simp [plot_boxplots, hbc, result_hatches_none]
        · simp [plot_boxplots, hbc, error_only_from_alpha_or_color, some_alpha_or_color_fails,
            List.any_cons, hc]
      | ok c =>
        have hbc : bar_call alphas colors none top_index bw b =
            .ok { x := b.1, y := b.2.1, std := b.2.2.1, bar_width := bw, alpha := a,
                  color := c, hatch := none, label := (b.2.2.2).getLastD "" } := by
          simp [bar_call, ha, hc, hatch_value]
        cases hrest : plot_boxplots rest bw alphas colors none top_index with
        | error e =>
          rw [hrest] at ih2
          simp only [error_only_from_alpha_or_color, some_alpha_or_color_fails] at ih2
          constructor
          · simp [plot_boxplots, hbc, hrest, result_hatches_none]
          · simp [plot_boxplots, hbc, hrest, error_only_from_alpha_or_color,
              some_alpha_or_color_fails, List.any_cons, ih2]
        | ok calls =>
          rw [hrest] at ih1
          simp only [result_hatches_none] at ih1
          constructor
          · simp [plot_boxplots, hbc, hrest, result_hatches_none, List.all_cons, ih1]
          · simp [plot_boxplots, hbc, hrest, error_only_from_alpha_or_color]
